import Mathlib

/-!
Verification of the Stock-Analysis backend (`backend/routes/stock_routes.py`).

Shallow embedding conventions:
* Python floats carrying prices are modelled as `Rat`; the single place where a
  float expression can become non-finite (division by a zero close price in the
  quote derivation) is modelled with an `Option Rat` field, `none` standing for
  the non-finite result of dividing by zero.
* Every call to an external collaborator (yfinance, the FMP news/search HTTP
  API, the sentiment, risk and prediction modules, the internal risk HTTP
  fallback) is an oracle value handed to the function: `PyResult a` is the
  outcome of a call that can raise (`raise e`) or return (`ok a`).  `NameError`
  is kept as a distinguished exception because the source has dedicated
  `except NameError` handlers whose behaviour differs from the generic ones.
* Python dict lookups `d.get(k, default)` on collaborator results are modelled
  as `Option` fields read with `getD`; a key that is absent maps to `none`.
* Truthiness of a returned Python value (`if sentiment_data and
  isinstance(sentiment_data, dict)`) is modelled by the `Option` layer: `none`
  stands for a falsy or non-dict value, `some d` for a truthy dict.
-/

/-- An exception raised by a collaborator call.  `nameError` mirrors Python
`NameError` (the source catches it separately); `timeout` and `requestError`
mirror `requests.exceptions.Timeout` / `RequestException`; `other` is any
other exception, carrying `str(e)`. -/
inductive PyExc where
  | nameError
  | timeout
  | requestError (msg : String)
  | other (msg : String)
deriving DecidableEq, Repr

/-- `str(e)` for a modelled exception. -/
def PyExc.msg : PyExc → String
  | .nameError => "name error"
  | .timeout => "timeout"
  | .requestError m => m
  | .other m => m

/-- Outcome of one collaborator call: it either returns a value or raises. -/
inductive PyResult (α : Type) where
  | ok (a : α)
  | raise (e : PyExc)
deriving DecidableEq, Repr

/-- Whether the call raised. -/
def PyResult.isRaise {α : Type} : PyResult α → Bool
  | .ok _ => false
  | .raise _ => true

/-! ### Python string strip (used by the search route on the query argument) -/

/-- The whitespace characters stripped by Python `str.strip()` (ASCII part). -/
def pyIsSpace (c : Char) : Bool :=
  c = ' ' || c = '\t' || c = '\n' || c = '\r' || c = '\x0b' || c = '\x0c'

/-- Python `str.strip()`: drop leading and trailing whitespace. -/
def pyStrip (s : String) : String :=
  String.mk (((s.data.dropWhile pyIsSpace).reverse.dropWhile pyIsSpace).reverse)

/-! ### Ticker search (`search_stocks`, lines 26-72, and its route, lines 74-92) -/

/-- Outcome of the outbound FMP search request: either the request (or the
JSON decoding) raised, or a response arrived with a status code and, when the
body decodes to a JSON list, that list (`none` body = falsy or non-list JSON).
Result items are opaque to the code, so they are modelled as strings. -/
inductive SearchUpstream where
  | raise (e : PyExc)
  | resp (status : Nat) (body : Option (List String))
deriving DecidableEq, Repr

/-- Value returned by `search_stocks`: a list of matches or an error dict
`{"error": msg}`. -/
inductive SearchResult where
  | results (items : List String)
  | error (msg : String)
deriving DecidableEq, Repr

/-- `search_stocks(query)` (lines 26-72).  The second component records
whether the outbound network request at line 46 was issued.  The `query`
string only flows into the request parameters, so it does not influence the
shape of the result. -/
def search_stocks (key : String) (query : String) (u : SearchUpstream) :
    SearchResult × Bool :=
  -- line 32: `if not FMP_API_KEY: return {"error": "API key not configured"}`
  if key = "" then (.error "API key not configured", false)
  else
    let result : SearchResult :=
      match u with
      | .raise .timeout => .error "API request timed out. Try again later."
      | .raise (.requestError _) => .error "API request error. Please try again."
      | .raise .nameError => .error "An unexpected error occurred"
      | .raise (.other _) => .error "An unexpected error occurred"
      | .resp status body =>
        if status = 401 then .error "API authentication failed. Check your API key."
        else if status = 429 then .error "API rate limit exceeded. Try again later."
        else if status ≠ 200 then
          .error ("API request failed with status code " ++ toString status)
        else
          -- line 62: `return data if data else []`
          match body with
          | some data => if data.isEmpty then .results [] else .results data
          | none => .results []
    (result, true)

/-- Response of the `/stocks/search` route: HTTP status, JSON body and
whether any outbound network call happened while serving the request. -/
structure SearchRouteResult where
  status : Nat
  body : SearchResult
  networkCalled : Bool
deriving DecidableEq, Repr

/-- `search_stocks_route` (lines 74-92).  `nameArg` is the raw `name` query
parameter (`none` when missing, defaulted to `""` by `request.args.get`). -/
def search_stocks_route (key : String) (nameArg : Option String)
    (u : SearchUpstream) : SearchRouteResult :=
  let query := pyStrip (nameArg.getD "")
  if query = "" then
    ⟨400, .error "Please provide a valid stock name or symbol", false⟩
  else
    let r := search_stocks key query u
    match r.1 with
    | .error m => ⟨500, .error m, r.2⟩
    | .results items => ⟨200, .results items, r.2⟩

/-! ### Data model of the StockDetails aggregate (`get_stock_details`, lines 94-341) -/

/-- Current quote.  `change_percent` is `none` exactly when the Python float
expression `(change / previous_close) * 100` divided by a zero close, i.e.
produced a non-finite float (no value of `Rat` represents it). -/
structure Quote where
  price : Rat
  change : Rat
  change_percent : Option Rat
deriving DecidableEq, Repr

/-- Initial quote of the response skeleton (lines 100-104). -/
def defaultQuote : Quote := ⟨0, 0, some 0⟩

/-- Company profile (lines 105-112, updated at 127-133). -/
structure Profile where
  name : String
  symbol : String
  industry : String
  sector : String
  country : String
  website : String
deriving DecidableEq, Repr

/-- Initial profile of the response skeleton (lines 105-112). -/
def defaultProfile (symbol : String) : Profile :=
  ⟨symbol, symbol, "N/A", "N/A", "N/A", "#"⟩

/-- One point of the 1-year history (lines 158-164): the formatted date string
and the close price. -/
structure HistPoint where
  date : String
  close : Rat
deriving DecidableEq, Repr

/-- A news item as shaped by the aggregator (lines 197-205) or as delivered by
the sentiment module. -/
structure NewsItem where
  title : String
  publisher : String
  link : String
  published_at : String
deriving DecidableEq, Repr

/-- A raw FMP news article as a JSON dict; each `.get(k, default)` read at
lines 199-202 maps an absent key to the default. -/
structure Article where
  title : Option String
  site : Option String
  url : Option String
  publishedDate : Option String
deriving DecidableEq, Repr

/-- Shaping of one article (lines 198-203). -/
def toNewsItem (a : Article) : NewsItem :=
  ⟨a.title.getD "", a.site.getD "", a.url.getD "", a.publishedDate.getD ""⟩

/-- The sentiment field of the aggregate (lines 232-234 and 242). -/
structure Sentiment where
  overall_prediction : String
deriving DecidableEq, Repr

/-- The dict returned by the sentiment module on success: its `news` key read
with default `[]` (line 226) and its `overall_prediction` key read with
default `"Neutral"` (line 233). -/
structure SentimentData where
  news : List NewsItem
  overall_prediction : Option String
deriving DecidableEq, Repr

/-- The risk-analysis shape of the aggregate and of the `/risk/analyze`
response body.  The `error` field is `none` everywhere in `get_stock_details`;
the route attaches a message there in its error branches (lines 375-385 and
400-412). -/
structure RiskAnalysis where
  risk_level : String
  volatility : String
  daily_return : String
  current_price : String
  trend : String
  latest_close : Option Rat
  error : Option String
deriving DecidableEq, Repr

/-- The all-N/A risk record used by every risk fallback branch
(lines 264-271, 286-293, 296-303). -/
def defaultRisk : RiskAnalysis := ⟨"N/A", "N/A", "N/A", "N/A", "N/A", none, none⟩

/-- The dict returned by `fetch_risk_results`: `error = none` models
`'error' not in risk_results` (line 253); the other keys are read with
`.get(k, 'N/A')` / `.get('latest_close', None)` at lines 255-260. -/
structure RiskResults where
  error : Option String
  risk_level : Option String
  volatility : Option String
  daily_return : Option String
  current_price : Option String
  trend : Option String
  latest_close : Option Rat
deriving DecidableEq, Repr

/-- Response of the internal `/risk/analyze/<symbol>` HTTP fallback call
(lines 279-293): `ok` is `risk_response.ok` and `risk_analysis` is
`risk_response.json().get('risk_analysis')` (line 282), `none` when absent. -/
structure RiskHttp where
  ok : Bool
  risk_analysis : Option RiskAnalysis
deriving DecidableEq, Repr

/-- The dict returned by `stock_price_predictor`: `error = none` models
`'error' not in prediction_result` (line 313); the other keys are read at
lines 315-319, `prediction_confidence` with default `70`. -/
structure PredictionResult where
  error : Option String
  predicted_price : Option Rat
  last_close_price : Option Rat
  price_change : Option Rat
  prediction_confidence : Option Int
  prediction_direction : Option String
deriving DecidableEq, Repr

/-- The price-prediction field of the aggregate (lines 314-320). -/
structure PricePrediction where
  predicted_price : Option Rat
  last_close_price : Option Rat
  price_change : Option Rat
  prediction_confidence : Int
  prediction_direction : Option String
deriving DecidableEq, Repr

/-- The `stock.info` dict of yfinance, read with `.get` at lines 128-132. -/
structure YfInfo where
  longName : Option String
  industry : Option String
  sector : Option String
  country : Option String
  website : Option String
deriving DecidableEq, Repr

/-- The aggregate root (lines 99-118).  `error` is the optional top-level
error string of the minimal fallback object (lines 335-341). -/
structure StockDetails where
  current_quote : Quote
  profile : Profile
  historical_prices : List HistPoint
  news : List NewsItem
  sentiment : Option Sentiment
  risk_analysis : Option RiskAnalysis
  price_prediction : Option PricePrediction
  error : Option String
deriving DecidableEq, Repr

/-! ### Upstream outcomes of one aggregation request -/

/-- Outcome of the news sub-fetch request (lines 187-208): the request or the
JSON decoding raised, or a response arrived; the body is `some articles` when
it decodes to a JSON list and `none` otherwise (only consulted on status
200). -/
inductive NewsUpstream where
  | raise (e : PyExc)
  | resp (status : Nat) (body : Option (List Article))
deriving DecidableEq, Repr

/-- Whether the news request raised. -/
def NewsUpstream.isRaise : NewsUpstream → Bool
  | .raise _ => true
  | .resp _ _ => false

/-- All collaborator outcomes consumed by one `get_stock_details(symbol)`
call.  The three yfinance accesses are separately fallible because an
exception at any of them aborts the rest of the yfinance block (lines
121-171) while keeping what was already assigned. -/
structure Upstream where
  yfInfo : PyResult (Option YfInfo)
  yfDay1 : PyResult (List Rat)
  yfYear1 : PyResult (List HistPoint)
  news : NewsUpstream
  sentiment : PyResult (Option SentimentData)
  riskDirect : PyResult RiskResults
  riskHttp : PyResult RiskHttp
  prediction : PyResult PredictionResult
deriving DecidableEq, Repr

/-! ### The five sub-fetches -/

/-- Quote derivation from a non-empty 1-day close series (lines 141-150):
`close_price = closes.iloc[-1]`, `previous_close = closes.iloc[0]`,
`change = close - previous`, `change_percent = change / previous * 100`.
The division is unguarded in the source; dividing by a zero first close
yields a non-finite float, modelled as `none`. -/
def quoteOfSeries (closes : List Rat) : Quote :=
  let close_price := closes.getLast?.getD 0
  let previous_close := closes.head?.getD 0
  let change := close_price - previous_close
  ⟨close_price, change,
   if previous_close = 0 then none else some (change / previous_close * 100)⟩

/-- The profile, quote and history fields produced by the yfinance block. -/
structure YfFields where
  profile : Profile
  current_quote : Quote
  historical_prices : List HistPoint
deriving DecidableEq, Repr

/-- The yfinance block (lines 121-171).  The accesses run in order: profile
info, 1-day history, 1-year history; an exception at any one of them is
caught at line 169 and leaves the later fields at their defaults while
keeping the earlier assignments.  (`yf.Ticker(symbol)` raising is covered by
the first access raising.)  An empty info dict (line 126) and empty price
frames (lines 140 and 157) skip the corresponding assignment. -/
def yfStep (symbol : String) (info : PyResult (Option YfInfo))
    (day1 : PyResult (List Rat)) (year1 : PyResult (List HistPoint)) :
    YfFields :=
  match info with
  | .raise _ => ⟨defaultProfile symbol, defaultQuote, []⟩
  | .ok oinfo =>
    let profile : Profile :=
      match oinfo with
      | some i =>
        { name := i.longName.getD symbol, symbol := symbol,
          industry := i.industry.getD "N/A", sector := i.sector.getD "N/A",
          country := i.country.getD "N/A", website := i.website.getD "#" }
      | none => defaultProfile symbol
    match day1 with
    | .raise _ => ⟨profile, defaultQuote, []⟩
    | .ok closes =>
      let quote := if closes.isEmpty then defaultQuote else quoteOfSeries closes
      match year1 with
      | .raise _ => ⟨profile, quote, []⟩
      | .ok hist => ⟨profile, quote, if hist.isEmpty then [] else hist⟩

/-- The news sub-fetch (lines 174-216), producing the `news` field from its
initial `[]`.  With no API key the fetch is skipped (line 175); any exception
is absorbed (lines 211-216); a 401 or any other non-200 status degrades
silently (lines 189-193); a 200 body that is a non-empty list is shaped and
capped to 5 (lines 196-205), anything else keeps the empty default. -/
def newsFetch (key : String) (u : NewsUpstream) : List NewsItem :=
  if key = "" then []
  else
    match u with
    | .raise _ => []
    | .resp status body =>
      if status = 401 then []
      else if status ≠ 200 then []
      else
        match body with
        | some articles =>
          if articles.isEmpty then []
          else (articles.take 5).map toNewsItem
        | none => []

/-- The sentiment sub-fetch (lines 218-242), producing the final `news` field
from the news-provider items and the `sentiment` field from its initial
`none`.  A truthy dict with non-empty `news` REPLACES the provider news (lines
229-230) and sets `overall_prediction` (lines 232-234); a falsy or non-dict
return changes nothing (line 236); a `NameError` changes nothing (lines
238-239); any other exception sets the neutral sentiment (lines 240-242). -/
def sentimentStep (u : PyResult (Option SentimentData))
    (news : List NewsItem) : List NewsItem × Option Sentiment :=
  match u with
  | .ok (some d) =>
    (if d.news.isEmpty then news else d.news,
     some ⟨d.overall_prediction.getD "Neutral"⟩)
  | .ok none => (news, none)
  | .raise .nameError => (news, none)
  | .raise _ => (news, some ⟨"Neutral"⟩)

/-- The risk sub-fetch (lines 244-303).  A direct result without error key is
normalised (lines 253-261); one with an error key gives the all-N/A record
(lines 262-271); a `NameError` from the direct call falls back to the
internal HTTP call (lines 272-293), whose non-ok response gives the all-N/A
record and whose own exception propagates to the handler at line 294; any
other exception gives the all-N/A record (lines 294-303). -/
def riskStep (direct : PyResult RiskResults) (http : PyResult RiskHttp) :
    Option RiskAnalysis :=
  match direct with
  | .ok r =>
    if r.error = none then
      some { risk_level := r.risk_level.getD "N/A",
             volatility := r.volatility.getD "N/A",
             daily_return := r.daily_return.getD "N/A",
             current_price := r.current_price.getD "N/A",
             trend := r.trend.getD "N/A",
             latest_close := r.latest_close,
             error := none }
    else some defaultRisk
  | .raise .nameError =>
    (match http with
     | .ok resp => if resp.ok then resp.risk_analysis else some defaultRisk
     | .raise _ => some defaultRisk)
  | .raise _ => some defaultRisk

/-- The prediction sub-fetch (lines 305-327): a result without error key is
normalised (lines 313-320, confidence defaulting to 70); an error key or any
exception leaves the field `none` (lines 322-327). -/
def predictionStep (u : PyResult PredictionResult) : Option PricePrediction :=
  match u with
  | .ok p =>
    if p.error = none then
      some ⟨p.predicted_price, p.last_close_price, p.price_change,
            p.prediction_confidence.getD 70, p.prediction_direction⟩
    else none
  | .raise _ => none

/-- `get_stock_details(symbol)` (lines 94-341).  The source threads one dict
through five sub-fetch blocks whose written fields are disjoint (only the
sentiment block rereads and may overwrite the news written by the news
block), so the aggregate is assembled field by field here.  Every fallible
statement of the body sits inside one of the inner handlers, so the outer
`except` at line 331 is unreachable for every combination of collaborator
outcomes and the top-level `error` field is always absent (`none`). -/
def get_stock_details (key : String) (symbol : String) (u : Upstream) :
    StockDetails :=
  let yf := yfStep symbol u.yfInfo u.yfDay1 u.yfYear1
  let providerNews := newsFetch key u.news
  let ns := sentimentStep u.sentiment providerNews
  { current_quote := yf.current_quote,
    profile := yf.profile,
    historical_prices := yf.historical_prices,
    news := ns.1,
    sentiment := ns.2,
    risk_analysis := riskStep u.riskDirect u.riskHttp,
    price_prediction := predictionStep u.prediction,
    error := none }

/-! ### The detail and risk routes -/

/-- Response of the `/stocks/details/<symbol>` route: status and body (`none`
body = the `{"error": "Symbol is required"}` dict of the 400 branch). -/
structure DetailsRouteResult where
  status : Nat
  body : Option StockDetails
deriving DecidableEq, Repr

/-- `stock_details_route` (lines 343-359): a falsy symbol gives 400; otherwise
the aggregate is returned with status 200 (line 353).  `get_stock_details`
never raises in the model, so the handler at line 354 is unreachable. -/
def stock_details_route (key : String) (symbol : String) (u : Upstream) :
    DetailsRouteResult :=
  if symbol = "" then ⟨400, none⟩
  else ⟨200, some (get_stock_details key symbol u)⟩

/-- Response of the `/risk/analyze/<symbol>` route: status and the
`risk_analysis` object of the body (`none` = the 400 error dict). -/
structure RiskRouteResult where
  status : Nat
  risk_analysis : Option RiskAnalysis
deriving DecidableEq, Repr

/-- `analyze_stock_risk` (lines 361-412): falsy symbol gives 400; a result
with an error key gives 200 with the all-N/A shape carrying the message
(lines 373-385); a clean result is normalised at 200 (lines 389-398); any
exception gives 200 with the all-N/A shape carrying
`"Failed to analyze stock risk: " + str(e)` (lines 400-412). -/
def analyze_stock_risk (symbol : String) (u : PyResult RiskResults) :
    RiskRouteResult :=
  if symbol = "" then ⟨400, none⟩
  else
    match u with
    | .ok r =>
      match r.error with
      | some m => ⟨200, some { defaultRisk with error := some m }⟩
      | none =>
        ⟨200, some { risk_level := r.risk_level.getD "N/A",
                     volatility := r.volatility.getD "N/A",
                     daily_return := r.daily_return.getD "N/A",
                     current_price := r.current_price.getD "N/A",
                     trend := r.trend.getD "N/A",
                     latest_close := r.latest_close,
                     error := none }⟩
    | .raise e =>
      ⟨200, some { defaultRisk with
                   error := some ("Failed to analyze stock risk: " ++ e.msg) }⟩

/-! ## Claims -/

/-- Claim C5: for every non-empty search query (and a configured API key, which
is what makes an outbound request and hence a provider status possible), a
provider HTTP 401 yields the authentication-failed error payload, an HTTP 429
yields the rate-limited error payload, a timeout yields the timeout error
payload, and every other raised transport failure yields some error payload —
never an unhandled exception — and the route propagates each such error dict
as HTTP 500. -/
theorem C5_search_error_payloads (key q : String)
    (hk : key ≠ "") (hq : pyStrip q ≠ "") :
    (∀ b, search_stocks_route key (some q) (.resp 401 b) =
      ⟨500, .error "API authentication failed. Check your API key.", true⟩) ∧
    (∀ b, search_stocks_route key (some q) (.resp 429 b) =
      ⟨500, .error "API rate limit exceeded. Try again later.", true⟩) ∧
    (search_stocks_route key (some q) (.raise .timeout) =
      ⟨500, .error "API request timed out. Try again later.", true⟩) ∧
    (∀ e, ∃ m, search_stocks_route key (some q) (.raise e) =
      ⟨500, .error m, true⟩) := by
  refine ⟨fun b => ?_, fun b => ?_, ?_, fun e => ?_⟩
  · simp [search_stocks_route, search_stocks, hk, hq]
  · simp [search_stocks_route, search_stocks, hk, hq]
  · simp [search_stocks_route, search_stocks, hk, hq]
  · cases e with
    | nameError =>
      exact ⟨"An unexpected error occurred",
        by simp [search_stocks_route, search_stocks, hk, hq]⟩
    | timeout =>
      exact ⟨"API request timed out. Try again later.",
        by simp [search_stocks_route, search_stocks, hk, hq]⟩
    | requestError m =>
      exact ⟨"API request error. Please try again.",
        by simp [search_stocks_route, search_stocks, hk, hq]⟩
    | other m =>
      exact ⟨"An unexpected error occurred",
        by simp [search_stocks_route, search_stocks, hk, hq]⟩

/-- Witness for C5 at key `"k"`, query `"TCS"`. -/
theorem C5_search_error_payloads_witness :
    search_stocks_route "k" (some "TCS") (.resp 401 none) =
      ⟨500, .error "API authentication failed. Check your API key.", true⟩ :=
  (C5_search_error_payloads "k" "TCS" (by decide) (by decide)).1 none

/-- Claim C6: a request whose `name` query parameter is missing, empty, or
whitespace-only after trimming gets HTTP 400 with an error body and no
network call is issued. -/
theorem C6_blank_query_400 (key : String) (nameArg : Option String)
    (u : SearchUpstream) (h : (nameArg.getD "").data.all pyIsSpace = true) :
    search_stocks_route key nameArg u =
      ⟨400, .error "Please provide a valid stock name or symbol", false⟩ := by
  have h1 : (nameArg.getD "").data.dropWhile pyIsSpace = [] :=
    List.dropWhile_eq_nil_iff.mpr (by simpa [List.all_eq_true] using h)
  have hstrip : pyStrip (nameArg.getD "") = "" := by
    simp [pyStrip, h1]
  simp [search_stocks_route, hstrip]

/-- Witness for C6 at a whitespace-only query. -/
theorem C6_blank_query_400_witness :
    search_stocks_route "k" (some "  ") (.resp 200 none) =
      ⟨400, .error "Please provide a valid stock name or symbol", false⟩ :=
  C6_blank_query_400 "k" (some "  ") (.resp 200 none) (by decide)

/-- Claim C10: with the API key unset or empty, `search_stocks` returns the
`"API key not configured"` error dict without issuing any network call, and
the route surfaces it as HTTP 500. -/
theorem C10_missing_api_key (query : String) (nameArg : Option String)
    (u : SearchUpstream) (hq : pyStrip (nameArg.getD "") ≠ "") :
    search_stocks "" query u = (.error "API key not configured", false) ∧
    search_stocks_route "" nameArg u =
      ⟨500, .error "API key not configured", false⟩ := by
  refine ⟨by simp [search_stocks], ?_⟩
  simp [search_stocks_route, search_stocks, hq]

/-- Witness for C10 at query `"TCS"`. -/
theorem C10_missing_api_key_witness :
    search_stocks "" "TCS" (.resp 200 none) =
      (.error "API key not configured", false) ∧
    search_stocks_route "" (some "TCS") (.resp 200 none) =
      ⟨500, .error "API key not configured", false⟩ :=
  C10_missing_api_key "TCS" (some "TCS") (.resp 200 none) (by decide)

/-- When the info access returned, the quote of the yfinance block only
depends on the 1-day series outcome. -/
theorem yfStep_quote_ok (symbol : String) (oinfo : Option YfInfo)
    (closes : List Rat) (year1 : PyResult (List HistPoint)) :
    (yfStep symbol (.ok oinfo) (.ok closes) year1).current_quote =
      if closes.isEmpty then defaultQuote else quoteOfSeries closes := by
  cases oinfo <;> cases year1 <;> rfl

/-- Claim C4: with the yfinance info and 1-day accesses returning, the quote
is derived from the 1-day close series as price = last close, change = last
close minus first close, change_percent = change / first close * 100; and for
an empty series the quote keeps the zero defaults.  (The percent formula
presupposes a non-zero first close; the zero-divisor case is the subject of
claim C9.) -/
theorem C4_quote_derivation (key symbol : String) (u : Upstream)
    (info : Option YfInfo) (closes : List Rat)
    (hinfo : u.yfInfo = .ok info) (hday : u.yfDay1 = .ok closes) :
    (closes = [] →
      (get_stock_details key symbol u).current_quote = ⟨0, 0, some 0⟩) ∧
    (closes ≠ [] → closes.head?.getD 0 ≠ 0 →
      (get_stock_details key symbol u).current_quote =
        ⟨closes.getLast?.getD 0,
         closes.getLast?.getD 0 - closes.head?.getD 0,
         some ((closes.getLast?.getD 0 - closes.head?.getD 0) /
               closes.head?.getD 0 * 100)⟩) := by
  have hq : (get_stock_details key symbol u).current_quote =
      if closes.isEmpty then defaultQuote else quoteOfSeries closes := by
    simp [get_stock_details, hinfo, hday, yfStep_quote_ok]
  constructor
  · intro he
    subst he
    simp [hq, defaultQuote]
  · intro hne h0
    rw [hq]
    simp [List.isEmpty_iff, hne, quoteOfSeries, h0]

/-- Upstream outcomes for the C4 witness: yfinance returns the 1-day close
series `[2, 3]`, everything else is irrelevant. -/
def c4Upstream : Upstream :=
  { yfInfo := .ok none, yfDay1 := .ok [2, 3], yfYear1 := .ok [],
    news := .resp 200 none, sentiment := .ok none,
    riskDirect := .raise (.other "down"), riskHttp := .raise (.other "down"),
    prediction := .raise (.other "down") }

/-- Witness for C4 at the series `[2, 3]`: price 3, change 1, percent 50. -/
theorem C4_quote_derivation_witness :
    (get_stock_details "k" "TCS.NS" c4Upstream).current_quote =
      ⟨3, 1, some 50⟩ := by
  have h := (C4_quote_derivation "k" "TCS.NS" c4Upstream none [2, 3]
    rfl rfl).2 (by decide) (by norm_num)
  rw [h]
  norm_num

/-- Claim C9: the quote derivation divides by the first close of the 1-day
series with no guard, so for every non-empty series whose first close is
zero the guarded embedding lands in the error branch (`change_percent =
none`), and only the added precondition that the first close is non-zero
makes the division well defined. -/
theorem C9_zero_divisor_guard (key symbol : String) (u : Upstream)
    (info : Option YfInfo) (closes : List Rat)
    (hinfo : u.yfInfo = .ok info) (hday : u.yfDay1 = .ok closes)
    (hne : closes ≠ []) :
    (closes.head?.getD 0 = 0 →
      (get_stock_details key symbol u).current_quote.change_percent = none) ∧
    (closes.head?.getD 0 ≠ 0 →
      ((get_stock_details key symbol u).current_quote.change_percent).isSome
        = true) := by
  have hq : (get_stock_details key symbol u).current_quote =
      if closes.isEmpty then defaultQuote else quoteOfSeries closes := by
    simp [get_stock_details, hinfo, hday, yfStep_quote_ok]
  rw [hq]
  simp only [List.isEmpty_iff, hne, if_neg, quoteOfSeries]
  constructor
  · intro h0
    simp [h0]
  · intro h0
    simp [h0]

/-- Upstream outcomes for the C9 witness: the 1-day close series is `[0, 3]`,
so the first close is zero. -/
def c9Upstream : Upstream :=
  { yfInfo := .ok none, yfDay1 := .ok [0, 3], yfYear1 := .ok [],
    news := .resp 200 none, sentiment := .ok none,
    riskDirect := .raise (.other "down"), riskHttp := .raise (.other "down"),
    prediction := .raise (.other "down") }

/-- Witness for C9 at the series `[0, 3]`: the unguarded division by the zero
first close reaches the error branch. -/
theorem C9_zero_divisor_guard_witness :
    (get_stock_details "k" "TCS.NS" c9Upstream).current_quote.change_percent
      = none :=
  (C9_zero_divisor_guard "k" "TCS.NS" c9Upstream none [0, 3]
    rfl rfl (by decide)).1 (by decide)

/-- The news items delivered by the sentiment collaborator: its `news` key
when it returned a truthy dict, `[]` otherwise. -/
def sentimentNews : PyResult (Option SentimentData) → List NewsItem
  | .ok (some d) => d.news
  | .ok none => []
  | .raise _ => []

/-- Claim C2: when the sentiment collaborator returns a non-empty list of
news items they replace the news-provider items wholesale; when it returns
no news items the news-provider items are kept. -/
theorem C2_sentiment_news_override (key symbol : String) (u : Upstream) :
    (sentimentNews u.sentiment ≠ [] →
      (get_stock_details key symbol u).news = sentimentNews u.sentiment) ∧
    (sentimentNews u.sentiment = [] →
      (get_stock_details key symbol u).news = newsFetch key u.news) := by
  have hnews : (get_stock_details key symbol u).news =
      (sentimentStep u.sentiment (newsFetch key u.news)).1 := rfl
  rw [hnews]
  rcases hs : u.sentiment with d | e
  · rcases d with _ | d
    · simp [sentimentStep, sentimentNews]
    · constructor
      · intro hne
        have : ¬ d.news.isEmpty := by
          simpa [sentimentNews, List.isEmpty_iff] using hne
        simp [sentimentStep, sentimentNews, this]
      · intro he
        have : d.news.isEmpty := by
          simpa [sentimentNews, List.isEmpty_iff] using he
        simp [sentimentStep, this]
  · cases e <;> simp [sentimentStep, sentimentNews]

/-- A single news item used by concrete witnesses. -/
def mkItem (t : String) : NewsItem := ⟨t, "p", "l", "d"⟩

/-- Upstream outcomes for the C2 witness: the news provider answers with one
article and the sentiment collaborator returns one item of its own. -/
def c2Upstream : Upstream :=
  { yfInfo := .ok none, yfDay1 := .ok [], yfYear1 := .ok [],
    news := .resp 200 (some [⟨some "a", some "s", some "u", some "d"⟩]),
    sentiment := .ok (some ⟨[mkItem "from sentiment"], some "Bullish"⟩),
    riskDirect := .raise (.other "down"), riskHttp := .raise (.other "down"),
    prediction := .raise (.other "down") }

/-- Witness for C2: the single sentiment item replaces the provider item. -/
theorem C2_sentiment_news_override_witness :
    (get_stock_details "k" "TCS.NS" c2Upstream).news =
      [mkItem "from sentiment"] := by
  have h := (C2_sentiment_news_override "k" "TCS.NS" c2Upstream).1
    (by decide)
  rw [h]
  rfl

/-- The news produced by the news sub-fetch never exceeds 5 items. -/
theorem newsFetch_length_le (key : String) (u : NewsUpstream) :
    (newsFetch key u).length ≤ 5 := by
  unfold newsFetch
  split
  · simp
  · rcases u with e | ⟨status, body⟩
    · simp
    · dsimp only
      split
      · simp
      · split
        · simp
        · rcases body with _ | articles
          · simp
          · dsimp only
            split
            · simp
            · simp [List.length_take]

/-- Claim C7, corrected: the news-API items are capped at 5, but
sentiment-delivered items replace them without any cap, so the bound on the
final `news` field holds exactly when the sentiment collaborator delivers at
most 5 items (in particular when it delivers none). -/
theorem C7_amended_news_cap (key symbol : String) (u : Upstream)
    (h : (sentimentNews u.sentiment).length ≤ 5) :
    ((get_stock_details key symbol u).news).length ≤ 5 := by
  have hnews : (get_stock_details key symbol u).news =
      (sentimentStep u.sentiment (newsFetch key u.news)).1 := rfl
  rw [hnews]
  rcases hs : u.sentiment with d | e
  · rcases d with _ | d
    · simpa [sentimentStep] using newsFetch_length_le key u.news
    · by_cases hd : d.news.isEmpty
      · simpa [sentimentStep, hd] using newsFetch_length_le key u.news
      · have : (sentimentStep (.ok (some d)) (newsFetch key u.news)).1 =
            d.news := by simp [sentimentStep, hd]
        rw [this]
        simpa [sentimentNews, hs] using h
  · cases e <;> simpa [sentimentStep] using newsFetch_length_le key u.news

/-- Witness for C7 (amended): the sentiment collaborator of `c2Upstream`
delivers one item, so the final news list is within the bound. -/
theorem C7_amended_news_cap_witness :
    ((get_stock_details "k" "ITC.NS" c2Upstream).news).length ≤ 5 :=
  C7_amended_news_cap "k" "ITC.NS" c2Upstream (by decide)

/-- Upstream outcomes refuting C7 as stated: the sentiment collaborator
returns six news items; the aggregator installs them without the 5-item
cap that the news-API branch applies. -/
def c7Upstream : Upstream :=
  { yfInfo := .ok none, yfDay1 := .ok [], yfYear1 := .ok [],
    news := .resp 200 none,
    sentiment := .ok (some ⟨[mkItem "1", mkItem "2", mkItem "3", mkItem "4",
                             mkItem "5", mkItem "6"], some "Bullish"⟩),
    riskDirect := .raise (.other "down"), riskHttp := .raise (.other "down"),
    prediction := .raise (.other "down") }

/-- Counterexample to C7 as stated: with six sentiment-delivered items the
final `news` field has six items, exceeding the claimed cap of 5. -/
theorem C7_counterexample :
    ((get_stock_details "k" "TCS.NS" c7Upstream).news).length = 6 := by
  decide

/-- Upstream outcomes refuting C8 as stated: the sentiment call raises a
`NameError`, which the dedicated handler at lines 238-239 absorbs without
assigning the neutral sentiment, so the field stays null. -/
def c8Upstream : Upstream :=
  { yfInfo := .ok none, yfDay1 := .ok [], yfYear1 := .ok [],
    news := .resp 200 none, sentiment := .raise .nameError,
    riskDirect := .raise (.other "down"), riskHttp := .raise (.other "down"),
    prediction := .raise (.other "down") }

/-- Counterexample to C8 as stated: the sentiment fetch fails (raises), yet
the returned sentiment is null rather than the neutral label. -/
theorem C8_counterexample :
    c8Upstream.sentiment.isRaise = true ∧
    (get_stock_details "k" "TCS.NS" c8Upstream).sentiment = none := by
  decide

/-- Claim C8, corrected: when the sentiment fetch raises any exception other
than `NameError`, the returned sentiment carries the neutral label; a
`NameError` (and likewise a falsy or non-dict return) leaves the field
null. -/
theorem C8_amended_neutral_on_failure (key symbol : String) (u : Upstream)
    (e : PyExc) (he : u.sentiment = .raise e) (hne : e ≠ .nameError) :
    (get_stock_details key symbol u).sentiment = some ⟨"Neutral"⟩ := by
  have hs : (get_stock_details key symbol u).sentiment =
      (sentimentStep u.sentiment (newsFetch key u.news)).2 := rfl
  rw [hs, he]
  cases e with
  | nameError => exact absurd rfl hne
  | timeout => rfl
  | requestError m => rfl
  | other m => rfl

/-- Upstream outcomes for the C8 witness: the sentiment call raises a
generic exception. -/
def c8okUpstream : Upstream :=
  { yfInfo := .ok none, yfDay1 := .ok [], yfYear1 := .ok [],
    news := .resp 200 none, sentiment := .raise (.other "model crashed"),
    riskDirect := .raise (.other "down"), riskHttp := .raise (.other "down"),
    prediction := .raise (.other "down") }

/-- Witness for C8 (amended) at a generic sentiment exception. -/
theorem C8_amended_neutral_on_failure_witness :
    (get_stock_details "k" "TCS.NS" c8okUpstream).sentiment =
      some ⟨"Neutral"⟩ :=
  C8_amended_neutral_on_failure "k" "TCS.NS" c8okUpstream
    (.other "model crashed") rfl (by decide)

/-- A non-default risk record delivered by the internal HTTP fallback in the
C3 counterexample. -/
def oddRisk : RiskAnalysis :=
  ⟨"High", "0.52", "0.013", "101.5", "Upward", some 101, none⟩

/-- Upstream outcomes refuting C3 as stated: the direct risk call raises a
`NameError`, the aggregator falls back to the internal HTTP call (lines
272-283), and that call succeeds with a non-default record. -/
def c3Upstream : Upstream :=
  { yfInfo := .ok none, yfDay1 := .ok [], yfYear1 := .ok [],
    news := .resp 200 none, sentiment := .ok none,
    riskDirect := .raise .nameError,
    riskHttp := .ok ⟨true, some oddRisk⟩,
    prediction := .raise (.other "down") }

/-- Counterexample to C3 as stated: the risk collaborator raises, yet the
resulting `risk_analysis` is the HTTP-fallback record, not the all-default
one. -/
theorem C3_counterexample :
    c3Upstream.riskDirect.isRaise = true ∧
    (get_stock_details "k" "TCS.NS" c3Upstream).risk_analysis =
      some oddRisk ∧
    oddRisk ≠ defaultRisk := by
  decide

/-- Claim C3, corrected: a non-`NameError` exception or an error result from
the risk collaborator yields the all-default record; a `NameError` makes the
aggregator fall back to the internal HTTP call, whose failure or non-ok
response also yields the all-default record (its successful body is used
as-is); and the `/risk/analyze` endpoint answers HTTP 200 with the all-N/A
shape plus the error message on an error result or any exception, never an
unhandled exception. -/
theorem C3_amended_risk_defaults (key symbol : String) (u : Upstream)
    (rr : PyResult RiskResults) :
    (∀ e, u.riskDirect = .raise e → e ≠ .nameError →
      (get_stock_details key symbol u).risk_analysis = some defaultRisk) ∧
    (∀ r, u.riskDirect = .ok r → r.error ≠ none →
      (get_stock_details key symbol u).risk_analysis = some defaultRisk) ∧
    (u.riskDirect = .raise .nameError → u.riskHttp.isRaise = true →
      (get_stock_details key symbol u).risk_analysis = some defaultRisk) ∧
    (∀ resp, u.riskDirect = .raise .nameError → u.riskHttp = .ok resp →
      resp.ok = false →
      (get_stock_details key symbol u).risk_analysis = some defaultRisk) ∧
    (symbol ≠ "" → ∀ r m, rr = .ok r → r.error = some m →
      analyze_stock_risk symbol rr =
        ⟨200, some { defaultRisk with error := some m }⟩) ∧
    (symbol ≠ "" → ∀ e, rr = .raise e →
      analyze_stock_risk symbol rr =
        ⟨200, some { defaultRisk with
          error := some ("Failed to analyze stock risk: " ++ e.msg) }⟩) := by
  have hr : (get_stock_details key symbol u).risk_analysis =
      riskStep u.riskDirect u.riskHttp := rfl
  refine ⟨?_, ?_, ?_, ?_, ?_, ?_⟩
  · intro e hd hne
    rw [hr, hd]
    cases e with
    | nameError => exact absurd rfl hne
    | timeout => rfl
    | requestError m => rfl
    | other m => rfl
  · intro r hd herr
    rw [hr, hd]
    simp only [riskStep]
    rw [if_neg herr]
  · intro hd hhttp
    rw [hr, hd]
    rcases hh : u.riskHttp with resp | e
    · rw [hh] at hhttp
      simp [PyResult.isRaise] at hhttp
    · rfl
  · intro resp hd hhttp hok
    rw [hr, hd, hhttp]
    simp [riskStep, hok]
  · intro hsym r m hrr herr
    rw [hrr]
    simp [analyze_stock_risk, hsym, herr]
  · intro hsym e hrr
    rw [hrr]
    simp [analyze_stock_risk, hsym]

/-- Upstream outcomes for the C3 witness: the direct risk call reports an
error dict. -/
def c3okUpstream : Upstream :=
  { yfInfo := .ok none, yfDay1 := .ok [], yfYear1 := .ok [],
    news := .resp 200 none, sentiment := .ok none,
    riskDirect := .ok ⟨some "no data", none, none, none, none, none, none⟩,
    riskHttp := .raise (.other "down"),
    prediction := .raise (.other "down") }

/-- Witness for C3 (amended): an error result from the collaborator gives
the all-default record in the aggregate and the 200 all-N/A body with the
message on the risk route. -/
theorem C3_amended_risk_defaults_witness :
    (get_stock_details "k" "TCS.NS" c3okUpstream).risk_analysis =
      some defaultRisk ∧
    analyze_stock_risk "TCS.NS"
        (.ok ⟨some "no data", none, none, none, none, none, none⟩) =
      ⟨200, some { defaultRisk with error := some "no data" }⟩ := by
  have h := C3_amended_risk_defaults "k" "TCS.NS" c3okUpstream
    (.ok ⟨some "no data", none, none, none, none, none, none⟩)
  exact ⟨h.2.1 _ rfl (by decide),
         h.2.2.2.2.1 (by decide) _ "no data" rfl rfl⟩

/-- The profile of the yfinance block always carries the requested symbol,
whether the defaults stand or the info dict was applied. -/
theorem yfStep_profile_symbol (symbol : String)
    (info : PyResult (Option YfInfo)) (day1 : PyResult (List Rat))
    (year1 : PyResult (List HistPoint)) :
    (yfStep symbol info day1 year1).profile.symbol = symbol := by
  rcases info with oinfo | e
  · rcases oinfo with _ | i <;> rcases day1 with closes | e1 <;>
      rcases year1 with hist | e2 <;> rfl
  · rfl

/-- A raised news request leaves the news empty whatever the key. -/
theorem newsFetch_raise (key : String) (e : PyExc) :
    newsFetch key (.raise e) = [] := by
  unfold newsFetch
  split <;> rfl

/-- A raised sentiment call never touches the news field. -/
theorem sentimentStep_raise_news (e : PyExc) (news : List NewsItem) :
    (sentimentStep (.raise e) news).1 = news := by
  cases e <;> rfl

/-- When both the direct risk call and the HTTP fallback raise, the risk
field is the all-default record. -/
theorem riskStep_raise_raise (e e2 : PyExc) :
    riskStep (.raise e) (.raise e2) = some defaultRisk := by
  cases e <;> rfl

/-- Every collaborator call of the aggregation raised. -/
def Upstream.allFail (u : Upstream) : Bool :=
  u.yfInfo.isRaise && u.yfDay1.isRaise && u.yfYear1.isRaise &&
  (u.news).isRaise && u.sentiment.isRaise && u.riskDirect.isRaise &&
  u.riskHttp.isRaise && u.prediction.isRaise

/-- One concrete all-fail combination of collaborator outcomes. -/
def allFailUpstream : Upstream :=
  { yfInfo := .raise (.other "yfinance down"),
    yfDay1 := .raise (.other "yfinance down"),
    yfYear1 := .raise (.other "yfinance down"),
    news := .raise (.other "news api down"),
    sentiment := .raise (.other "sentiment down"),
    riskDirect := .raise (.other "risk down"),
    riskHttp := .raise (.other "risk endpoint down"),
    prediction := .raise (.other "prediction down") }

/-- Counterexample to C1 as stated: with every upstream call failing for
`"TCS.NS"` the handler does answer 200 with the defaulted aggregate, but the
top-level `error` field is ABSENT — every failure is absorbed by an inner
handler, so the outer fallback that would attach `error` (lines 331-341)
is never reached. -/
theorem C1_counterexample :
    allFailUpstream.allFail = true ∧
    (stock_details_route "k" "TCS.NS" allFailUpstream).status = 200 ∧
    (stock_details_route "k" "TCS.NS" allFailUpstream).body =
      some (get_stock_details "k" "TCS.NS" allFailUpstream) ∧
    (get_stock_details "k" "TCS.NS" allFailUpstream).profile.symbol =
      "TCS.NS" ∧
    (get_stock_details "k" "TCS.NS" allFailUpstream).historical_prices = [] ∧
    (get_stock_details "k" "TCS.NS" allFailUpstream).risk_analysis =
      some defaultRisk ∧
    (get_stock_details "k" "TCS.NS" allFailUpstream).price_prediction =
      none ∧
    (get_stock_details "k" "TCS.NS" allFailUpstream).error = none := by
  decide

/-- Claim C1, corrected: for every non-empty symbol the handler returns
HTTP 200 with the full StockDetails aggregate as body, whose profile carries
the symbol; the top-level `error` field is always absent, because every
collaborator failure is absorbed by an inner handler; and when every
upstream call fails the body has empty history and news, the all-default
risk record and a null prediction. -/
theorem C1_amended_always_200 (key symbol : String) (u : Upstream)
    (h : symbol ≠ "") :
    (stock_details_route key symbol u).status = 200 ∧
    (stock_details_route key symbol u).body =
      some (get_stock_details key symbol u) ∧
    (get_stock_details key symbol u).profile.symbol = symbol ∧
    (get_stock_details key symbol u).error = none ∧
    (u.allFail = true →
      (get_stock_details key symbol u).historical_prices = [] ∧
      (get_stock_details key symbol u).risk_analysis = some defaultRisk ∧
      (get_stock_details key symbol u).price_prediction = none ∧
      (get_stock_details key symbol u).news = []) := by
  refine ⟨by simp [stock_details_route, h], by simp [stock_details_route, h],
    yfStep_profile_symbol symbol u.yfInfo u.yfDay1 u.yfYear1, rfl, ?_⟩
  intro hall
  simp only [Upstream.allFail, Bool.and_eq_true] at hall
  obtain ⟨⟨⟨⟨⟨⟨⟨h1, h2⟩, h3⟩, h4⟩, h5⟩, h6⟩, h7⟩, h8⟩ := hall
  rcases hi : u.yfInfo with a | ei
  · rw [hi] at h1
    simp [PyResult.isRaise] at h1
  rcases hn : u.news with en | ⟨st, b⟩
  swap
  · rw [hn] at h4
    simp [NewsUpstream.isRaise] at h4
  rcases hs : u.sentiment with a | es
  · rw [hs] at h5
    simp [PyResult.isRaise] at h5
  rcases hrd : u.riskDirect with a | erd
  · rw [hrd] at h6
    simp [PyResult.isRaise] at h6
  rcases hrh : u.riskHttp with a | erh
  · rw [hrh] at h7
    simp [PyResult.isRaise] at h7
  rcases hp : u.prediction with a | ep
  · rw [hp] at h8
    simp [PyResult.isRaise] at h8
  refine ⟨?_, ?_, ?_, ?_⟩
  · show (yfStep symbol u.yfInfo u.yfDay1 u.yfYear1).historical_prices = []
    rw [hi]
    rfl
  · show riskStep u.riskDirect u.riskHttp = some defaultRisk
    rw [hrd, hrh]
    exact riskStep_raise_raise erd erh
  · show predictionStep u.prediction = none
    rw [hp]
    rfl
  · show (sentimentStep u.sentiment (newsFetch key u.news)).1 = []
    rw [hs, hn, newsFetch_raise, sentimentStep_raise_news]

/-- Witness for C1 (amended) at the concrete all-fail outcomes and symbol
`"TCS.NS"`. -/
theorem C1_amended_always_200_witness :
    (stock_details_route "k" "TCS.NS" allFailUpstream).status = 200 ∧
    (get_stock_details "k" "TCS.NS" allFailUpstream).profile.symbol =
      "TCS.NS" ∧
    (get_stock_details "k" "TCS.NS" allFailUpstream).error = none ∧
    (get_stock_details "k" "TCS.NS" allFailUpstream).risk_analysis =
      some defaultRisk := by
  have h := C1_amended_always_200 "k" "TCS.NS" allFailUpstream (by decide)
  exact ⟨h.1, h.2.2.1, h.2.2.2.1, (h.2.2.2.2 (by decide)).2.1⟩
